import Mathlib

/-!
Verification of the operato-agent retrieval-augmented query-generation
pipeline, shallowly embedded from the Python sources.

Conventions of the embedding:

* Python/JSON values are modelled by `PyVal` (numbers as rationals).
  External effects (the OpenAI chat model, the Chroma vector store,
  `json.loads`) are passed in as explicit function arguments ("oracles"):
  an LLM is a total function from the rendered prompt to the reply text,
  the vector store is a function from (query, k) to a document list, and
  a `json.loads` outcome is `Option PyVal` (`none` = `JSONDecodeError`).
* Fallible Python code is embedded in `Except PyErr`; a total Lean
  function models Python code that cannot raise.
* Chroma restricts document metadata values to scalars
  (str/int/float/bool), so metadata is `List (String × MetaVal)` with
  `MetaVal` the scalar values; `metaEqPy` is Python `==` between such a
  scalar (or `None` for a missing key) and an arbitrary value.
* Python `str.strip()` is `pyStrip` (implemented over the character
  list so that it evaluates by `rfl`/`decide`); `", ".join(l)` is
  `String.intercalate ", " l`; `s[:n]` is `String.take`.
-/

namespace OperatoAgent

/-- Python/JSON runtime values as they occur in this pipeline.  `llmObj`
stands for the (opaque) `ChatOpenAI` client object and `moduleObj` for a
Python module object; Python code can pass both around like any other
value, and neither is a dict. -/
inductive PyVal where
  | none_
  | bool_ (b : Bool)
  | num (q : ℚ)
  | str (s : String)
  | list (xs : List PyVal)
  | dict (fields : List (String × PyVal))
  | llmObj
  | moduleObj
  deriving Repr

/-- Python exceptions raised by the embedded code. -/
inductive PyErr where
  | keyError (key : String)
  | typeError
  | valueError
  | indexError
  | attributeError
  deriving Repr, DecidableEq

/-- Scalar metadata values: the Chroma vector store only accepts
str/int/float/bool metadata, so document metadata is scalar-valued. -/
inductive MetaVal where
  | mstr (s : String)
  | mnum (q : ℚ)
  | mbool (b : Bool)
  deriving Repr, DecidableEq

/-- Injection of a scalar metadata value into `PyVal`. -/
def MetaVal.toPy : MetaVal → PyVal
  | .mstr s => .str s
  | .mnum q => .num q
  | .mbool b => .bool_ b

/-- Python `v == s` for a string literal `s`: true exactly when `v` is the
equal string (no other Python value compares equal to a `str`). -/
def pyEqStr (v : PyVal) (s : String) : Bool :=
  match v with
  | .str t => t == s
  | _ => false

/-- Python `m == v` where `m` is `metadata.get(key)` (a scalar, or `None`
when the key is missing) and `v` is an arbitrary value.  Mirrors Python
equality, including `True == 1` and `None == None`; a scalar or `None`
never compares equal to a container. -/
def metaEqPy (m : Option MetaVal) (v : PyVal) : Bool :=
  match m, v with
  | none, .none_ => true
  | some (.mstr s), .str t => s == t
  | some (.mnum q), .num r => q == r
  | some (.mnum q), .bool_ b => q == (if b then 1 else 0)
  | some (.mbool b), .bool_ c => b == c
  | some (.mbool b), .num q => (if b then (1 : ℚ) else 0) == q
  | _, _ => false

/-- Python `d.get(key)` on a JSON object (`None`, i.e. `Option.none`, when
missing or when `d` is not a dict). -/
def pyDictGet (v : PyVal) (key : String) : Option PyVal :=
  match v with
  | .dict fields => fields.lookup key
  | _ => none

/-- Python subscript `v[key]` with a string key: `KeyError` on a dict
without the key, `TypeError` on any non-dict value. -/
def pyGetItem (v : PyVal) (key : String) : Except PyErr PyVal :=
  match v with
  | .dict fields =>
      match fields.lookup key with
      | some x => .ok x
      | none => .error (.keyError key)
  | _ => .error .typeError

/-- Python `str.strip()`: drop leading and trailing whitespace. -/
def pyStrip (s : String) : String :=
  ⟨((s.data.dropWhile Char.isWhitespace).reverse.dropWhile Char.isWhitespace).reverse⟩

/-- Python f-string formatting `f"{v:.2f}"`: succeeds on numbers (and on
bools, which are ints in Python), raises `ValueError` on strings and
`TypeError` on the remaining types.  The produced text is only printed,
so the model keeps just the success/failure outcome. -/
def pyFormat2f (v : PyVal) : Except PyErr Unit :=
  match v with
  | .num _ => .ok ()
  | .bool_ _ => .ok ()
  | .str _ => .error .valueError
  | _ => .error .typeError

/-- A LangChain `Document` held in the Chroma store: page content plus
scalar-valued metadata. -/
structure Document where
  page_content : String
  metadata : List (String × MetaVal)
  deriving Repr

/-- `metadata.get(key, default)` of a document, as the `PyVal` the Python
code goes on to use. -/
def metaGetD (doc : Document) (key : String) (default : PyVal) : PyVal :=
  ((doc.metadata.lookup key).map MetaVal.toPy).getD default

namespace IntegratedQueryGenerator

/-- The hardcoded fallback classification returned by `detect_protocol`
when `json.loads` fails on the LLM reply
(src/dsl_registry/integrated_query_generator.py, lines 96-105). -/
def fallbackClassification : PyVal :=
  .dict [("protocol", .str "graphql"),
         ("reasoning", .str "JSON 파싱 실패로 기본값 사용"),
         ("confidence", .num (1/2))]

/-- `IntegratedQueryGenerator.detect_protocol`: the argument is the
outcome of `json.loads(response.content)` on the LLM classification
reply (`some v` on success, `none` on `JSONDecodeError`).  On success the
parsed value is returned unchanged; on failure the hardcoded fallback is
returned.  Totality of this function models that the Python method
catches the parse error and never raises. -/
def detect_protocol (parsed : Option PyVal) : PyVal :=
  match parsed with
  | some result => result
  | none => fallbackClassification

/-- `IntegratedQueryGenerator.search_relevant_context`: builds the
protocol-flavoured search query, asks the vector store for `k` similar
documents, then keeps only documents whose `type` metadata compares
Python-equal to the classified protocol. -/
def search_relevant_context (similarity_search : String → Nat → List Document)
    (user_query : String) (protocol : PyVal) (k : Nat) : List Document :=
  let search_query :=
    if pyEqStr protocol "graphql" then
      user_query ++ " GraphQL schema types queries mutations"
    else
      user_query ++ " REST API OpenAPI operations endpoints"
  let results := similarity_search search_query k
  results.filter (fun doc => metaEqPy (doc.metadata.lookup "type") protocol)

/-- The context block: `"\n\n".join(doc.page_content for doc in docs)`. -/
def context_text (context_docs : List Document) : String :=
  String.intercalate "\n\n" (context_docs.map Document.page_content)

/-- The GraphQL generation prompt template (`self.graphql_prompt`) with
`{context}` and `{user_query}` substituted. -/
def graphql_prompt (context user_query : String) : String :=
  "\n다음 GraphQL 스키마 정보를 바탕으로 사용자 요청에 맞는 GraphQL 쿼리를 생성하세요.\n\nGraphQL 스키마 정보:\n"
    ++ context
    ++ "\n\n사용자 요청: " ++ user_query
    ++ "\n\n요구사항:\n1. 유효한 GraphQL 쿼리 구문 사용\n2. 필요한 필드만 선택\n3. 적절한 인자 사용\n4. 에러 처리 고려\n\n생성된 GraphQL 쿼리:\n"

/-- The REST generation prompt template (`self.rest_prompt`) with
`{context}` and `{user_query}` substituted. -/
def rest_prompt (context user_query : String) : String :=
  "\n다음 OpenAPI 스펙 정보를 바탕으로 사용자 요청에 맞는 REST API 요청을 생성하세요.\n\nOpenAPI 스펙 정보:\n"
    ++ context
    ++ "\n\n사용자 요청: " ++ user_query
    ++ "\n\n요구사항:\n1. 적절한 HTTP 메서드 선택\n2. 올바른 엔드포인트 사용\n3. 필요한 헤더 포함\n4. 요청 본문 구성 (필요시)\n5. 쿼리 파라미터 사용 (필요시)\n\n생성된 REST API 요청:\n"

/-- `IntegratedQueryGenerator.generate_graphql_query`: renders the
GraphQL prompt over the concatenated contents of all the supplied
context documents, invokes the LLM once, and strips the reply. -/
def generate_graphql_query (llm : String → String)
    (user_query : String) (context_docs : List Document) : String :=
  pyStrip (llm (graphql_prompt (context_text context_docs) user_query))

/-- `IntegratedQueryGenerator.generate_rest_request`: same shape as the
GraphQL generator but with the REST prompt; the reply is returned as a
bare stripped string, with no JSON parsing. -/
def generate_rest_request (llm : String → String)
    (user_query : String) (context_docs : List Document) : String :=
  pyStrip (llm (rest_prompt (context_text context_docs) user_query))

/-- One entry of the `context_sources` list in the result of
`generate_query`. -/
def context_source (doc : Document) : PyVal :=
  .dict [("source", metaGetD doc "source" (.str "Unknown")),
         ("type", metaGetD doc "type" (.str "Unknown")),
         ("content_preview", .str (doc.page_content.take 200 ++ "..."))]

/-- `IntegratedQueryGenerator.generate_query`: classify (via the parse
outcome of the classification reply), look the `protocol`, `confidence`
and `reasoning` fields up with Python subscripts (which raise
`KeyError`/`TypeError` on a malformed classification), print the
confidence with `:.2f` (which raises on non-numeric confidence),
retrieve context with `k = 5`, synthesize with the protocol-matching
generator, and assemble the result dict. -/
def generate_query (classifyParsed : Option PyVal)
    (similarity_search : String → Nat → List Document)
    (llm : String → String) (user_query : String) : Except PyErr PyVal := do
  let protocol_result := detect_protocol classifyParsed
  let protocol ← pyGetItem protocol_result "protocol"
  let confidence ← pyGetItem protocol_result "confidence"
  let _ ← pyFormat2f confidence
  let reasoning ← pyGetItem protocol_result "reasoning"
  let context_docs := search_relevant_context similarity_search user_query protocol 5
  let generated_query :=
    if pyEqStr protocol "graphql" then
      generate_graphql_query llm user_query context_docs
    else
      generate_rest_request llm user_query context_docs
  return .dict [("user_query", .str user_query),
                ("detected_protocol", protocol),
                ("confidence", confidence),
                ("reasoning", reasoning),
                ("generated_query", .str generated_query),
                ("context_sources", .list (context_docs.map context_source))]

end IntegratedQueryGenerator

/-- The `dsl_data` record written to YAML by `generate_dsl`
(src/dsl_registry/gql_schema_to_dsl.py); `type_definitions` is omitted
because the chunker never reads it.  YAML dump/load of these fields is
the identity, so this record is also what `load_dsls` reads back. -/
structure DslData where
  name : String
  type_ : String
  description : String
  query_template : String
  «variables» : List String
  related_types : List String
  deriving Repr, DecidableEq

/-- The pure part of `generate_dsl`: assemble the `dsl_data` record from
the operation name, the root type (`query`/`mutation`), the schema
description (`none`/`""` both fall back to `f"{type_} {name}"`, Python
`or`), the argument (name, type-string) pairs and the related type
names.  `variables` is `list(args.keys())` and `query_template` is the
skeleton built from `var_defs` and `args_str`. -/
def generate_dsl_data (name type_ : String) (description : Option String)
    (args : List (String × String)) (related_types : List String) : DslData :=
  let description :=
    match description with
    | some d => if d = "" then type_ ++ " " ++ name else d
    | none => type_ ++ " " ++ name
  let args_str := String.intercalate ", " (args.map (fun kv => kv.1 ++ ": $" ++ kv.1))
  let var_defs := String.intercalate ", " (args.map (fun kv => "$" ++ kv.1 ++ ": " ++ kv.2))
  let query_template :=
    type_ ++ " " ++ (if var_defs ≠ "" then "(" ++ var_defs ++ ")" else "")
      ++ " \x7b " ++ name ++ (if args_str ≠ "" then "(" ++ args_str ++ ")" else "")
      ++ " \x7b ... \x7d \x7d"
  { name := name, type_ := type_, description := description,
    query_template := query_template,
    «variables» := args.map Prod.fst, related_types := related_types }

/-- One chunk produced by `load_dsls` (src/rag/chunker.py) from a
reloaded DSL record: the flattened text plus the indexed metadata.
`variables` and `related_types` are stored as `", ".join(...)` of the
record's lists. -/
structure Chunk where
  id : String
  text : String
  metadata : List (String × MetaVal)
  deriving Repr, DecidableEq

/-- The per-record body of the `load_dsls` loop. -/
def load_dsl_chunk (dsl : DslData) : Chunk :=
  { id := dsl.name
  , text := "DSL `" ++ dsl.name ++ "` (" ++ dsl.type_ ++ "): " ++ dsl.description
      ++ "\nQuery:\n" ++ dsl.query_template
  , metadata := [("name", .mstr dsl.name),
                 ("type", .mstr dsl.type_),
                 ("variables", .mstr (String.intercalate ", " dsl.«variables»)),
                 ("related_types", .mstr (String.intercalate ", " dsl.related_types))] }

/-- The dict built for each retrieved document by `retrieve_relevant_dsl`
(src/rag/retriever.py): metadata fields with `""` defaults plus the page
content. -/
def docEntry (doc : Document) : PyVal :=
  .dict [("dsl_name", metaGetD doc "name" (.str "")),
         ("type", metaGetD doc "type" (.str "")),
         ("variables", metaGetD doc "variables" (.str "")),
         ("related_types", metaGetD doc "related_types" (.str "")),
         ("text", .str doc.page_content)]

/-- The name `settings` as bound in src/rag/retriever.py by
`from config import settings`: the `config` package has no
`__init__.py`, so this binds the `config.settings` *module* object —
not the settings dict defined inside that module. -/
def settings : PyVal := .moduleObj

/-- `rag.retriever.translate_to_english`: constructs the `ChatOpenAI`
client from `settings["llm"]["model"]` and
`settings["llm"]["openai_api_key"]`, renders the translation prompt,
invokes the LLM (`llmInvoke` oracle) and strips the reply.  Because
`settings` is the `config.settings` module object, the very first
subscript raises `TypeError` (a module is not subscriptable), so the
rest of the body is unreachable on every call. -/
def translate_to_english (llmInvoke : String → String) (text : String) :
    Except PyErr String := do
  let llm_settings ← pyGetItem settings "llm"
  let _model ← pyGetItem llm_settings "model"
  let _key ← pyGetItem llm_settings "openai_api_key"
  let prompt := "Translate the following Korean sentence to English. Keep it concise and suitable for semantic search.\n\nText: " ++ text
  return pyStrip (llmInvoke prompt)

/-- `retrieve_relevant_dsl`: translate the utterance to English with one
LLM call, run a similarity search with the given `k`, and return the
per-document dicts in the store's order.  The settings-module subscript
inside the translation step makes every call raise `TypeError` before
the search is reached. -/
def retrieve_relevant_dsl (llmInvoke : String → String)
    (similarity_search : String → Nat → List Document)
    (user_input : String) (k : Nat) : Except PyErr (List PyVal) := do
  let translated_input ← translate_to_english llmInvoke user_input
  let docs := similarity_search translated_input k
  return docs.map docEntry

namespace LlmQueryGenerator

/-- `llm.query_generator.generate_graphql_query(user_input, dsl_chunk,
llm=None)`, dynamically typed as in Python.  Building `inputs` calls
`dsl_chunk.get(...)`, which raises `AttributeError` unless `dsl_chunk`
is a dict (in particular a `ChatOpenAI` object has no `get`).  The
`chain = prompt | llm` composition then raises `TypeError` unless `llm`
is a language model; otherwise `chain.invoke(inputs)` is the external
call (`chainInvoke` oracle) and the reply content is stripped. -/
def generate_graphql_query (chainInvoke : List (String × PyVal) → String)
    (user_input dsl_chunk llm : PyVal) : Except PyErr String :=
  match dsl_chunk with
  | .dict fields =>
      let inputs := [("dsl", (fields.lookup "skeleton").getD (.str "")),
                     ("variables", (fields.lookup "variables").getD (.str "")),
                     ("description", (fields.lookup "description").getD (.str "")),
                     ("user_input", user_input)]
      match llm with
      | .llmObj => .ok (pyStrip (chainInvoke inputs))
      | _ => .error .typeError
  | _ => .error .attributeError

end LlmQueryGenerator

/-- `agent.planner.plan_query(user_input, llm)`: retrieves DSL context
with `k = 3` (which raises `TypeError` in the translation step), then
would call `generate_graphql_query(dsl_context, llm)` — two positional
arguments, so the retrieved list would be bound to `user_input`, the
LLM object to `dsl_chunk`, and `llm` would keep its `None` default. -/
def plan_query (llmInvoke : String → String)
    (similarity_search : String → Nat → List Document)
    (chainInvoke : List (String × PyVal) → String)
    (user_input : String) (llm : PyVal) : Except PyErr String := do
  let dsl_context ← retrieve_relevant_dsl llmInvoke similarity_search user_input 3
  LlmQueryGenerator.generate_graphql_query chainInvoke (.list dsl_context) llm .none_

/-- The `POST /ask` handler `ask_question` (src/main.py): load the LLM
client, plan the query, execute it, and wrap the outcome as
`{"result": result}`.  An exception raised inside propagates out of the
handler.  `execute` stands for `agent.executor.execute_query`, whose
module is absent from the repository (the import alone would already
stop the app from loading); it is an arbitrary oracle here and is never
reached, since planning always raises first. -/
def ask_question (llmInvoke : String → String)
    (similarity_search : String → Nat → List Document)
    (chainInvoke : List (String × PyVal) → String)
    (execute : String → PyVal) (question : String) : Except PyErr PyVal := do
  let llm := PyVal.llmObj
  let planned ← plan_query llmInvoke similarity_search chainInvoke question llm
  let result := execute planned
  return .dict [("result", result)]

namespace IntegratedAPIGenerator

/-- One `{"content": ..., "metadata": ...}` dict handled by the
`IntegratedAPIGenerator` class defined in
src/tests/test_integrated_api_generator.py (metadata values are Chroma
scalars, modelled as strings since only string metadata occurs). -/
structure ApiEntry where
  content : String
  metadata : List (String × String)
  deriving Repr, DecidableEq

/-- `IntegratedAPIGenerator.search_relevant_apis`: delegate to the
vector store when one is configured, otherwise return no results. -/
def search_relevant_apis (vectorstore : Option (String → Nat → List ApiEntry))
    (query : String) (top_k : Nat) : List ApiEntry :=
  match vectorstore with
  | some vs => vs query top_k
  | none => []

/-- `IntegratedAPIGenerator.detect_api_type`: majority vote over the
`type` metadata of the search results; on a tie the first result's type
decides (with default `graphql`), raising `IndexError` on an empty
list. -/
def detect_api_type (search_results : List ApiEntry) : Except PyErr String :=
  let graphql_count :=
    (search_results.filter (fun r => (r.metadata.lookup "type") == some "graphql")).length
  let openapi_count :=
    (search_results.filter (fun r => (r.metadata.lookup "type") == some "openapi")).length
  if graphql_count > openapi_count then .ok "graphql"
  else if openapi_count > graphql_count then .ok "openapi"
  else
    match search_results with
    | [] => .error .indexError
    | r :: _ => .ok ((r.metadata.lookup "type").getD "graphql")

/-- The `api_context` block of the test harness's GraphQL generator:
only the top 3 results (`relevant_apis[:3]`) are formatted and joined. -/
def api_context_graphql (relevant_apis : List ApiEntry) : String :=
  String.intercalate "\n\n"
    ((relevant_apis.take 3).map
      (fun api => "API: " ++ ((api.metadata.lookup "dsl_name").getD "Unknown")
        ++ "\n" ++ api.content))

/-- The `api_context` block of the test harness's OpenAPI generator
(keyed by `operation`), again capped at the top 3 results. -/
def api_context_openapi (relevant_apis : List ApiEntry) : String :=
  String.intercalate "\n\n"
    ((relevant_apis.take 3).map
      (fun api => "API: " ++ ((api.metadata.lookup "operation").getD "Unknown")
        ++ "\n" ++ api.content))

/-- The GraphQL generation prompt of the test harness with
`{api_context}` and `{query}` substituted. -/
def graphql_gen_prompt (api_context query : String) : String :=
  "\n다음 GraphQL API 정보를 바탕으로 자연어 쿼리를 GraphQL 쿼리로 변환해주세요.\n\nAPI 정보:\n"
    ++ api_context
    ++ "\n\n자연어 쿼리: " ++ query
    ++ "\n\nGraphQL 쿼리를 생성해주세요. 변수는 $로 시작하고, 적절한 필드를 선택하세요.\n"

/-- The OpenAPI generation prompt of the test harness with
`{api_context}` and `{query}` substituted (the doubled braces of the
Python f-string are the literal braces of the JSON skeleton). -/
def openapi_gen_prompt (api_context query : String) : String :=
  "\n다음 OpenAPI 정보를 바탕으로 자연어 쿼리를 HTTP 요청으로 변환해주세요.\n\nAPI 정보:\n"
    ++ api_context
    ++ "\n\n자연어 쿼리: " ++ query
    ++ "\n\n다음 JSON 형식으로 HTTP 요청을 생성해주세요:\n\x7b\n    \"method\": \"HTTP_METHOD\",\n    \"url\": \"BASE_URL/PATH\",\n    \"headers\": \x7b\x7d,\n    \"params\": \x7b\x7d,\n    \"body\": \x7b\x7d\n\x7d\n\n가능한 HTTP 메서드: GET, POST, PUT, DELETE, PATCH\n"

/-- `IntegratedAPIGenerator.generate_graphql_query`: without an LLM
client a fixed failure comment is returned; otherwise one chat call on
the rendered prompt, reply stripped.  (The `try/except` around the call
only catches provider failures, which the total `llm` oracle excludes.) -/
def generate_graphql_query (llm : Option (String → String))
    (query : String) (relevant_apis : List ApiEntry) : String :=
  match llm with
  | none => "# GraphQL 쿼리 생성 실패: LLM이 초기화되지 않음"
  | some f => pyStrip (f (graphql_gen_prompt (api_context_graphql relevant_apis) query))

/-- `IntegratedAPIGenerator.generate_openapi_request`: without an LLM
client a fixed error dict; otherwise one chat call, and the stripped
reply is JSON-parsed (`parseJson` is the `json.loads` oracle) — the
parsed value on success, and on `JSONDecodeError` an error dict carrying
the raw stripped reply under `raw_response`. -/
def generate_openapi_request (llm : Option (String → String))
    (parseJson : String → Option PyVal)
    (query : String) (relevant_apis : List ApiEntry) : PyVal :=
  match llm with
  | none => .dict [("error", .str "OpenAPI 요청 생성 실패: LLM이 초기화되지 않음")]
  | some f =>
      let raw := pyStrip (f (openapi_gen_prompt (api_context_openapi relevant_apis) query))
      match parseJson raw with
      | some v => v
      | none => .dict [("error", .str "JSON 파싱 실패"), ("raw_response", .str raw)]

/-- A metadata dict as a `PyVal` (for the `relevant_apis` field of the
result). -/
def metaDict (m : List (String × String)) : PyVal :=
  .dict (m.map (fun kv => (kv.1, .str kv.2)))

/-- `IntegratedAPIGenerator.generate_api_call`: search with the default
`top_k = 5`; on an empty result list return the explicit
"no relevant API found" error dict; otherwise detect the API type and
dispatch to the matching generator, reporting the top-3 metadata as
provenance. -/
def generate_api_call (vectorstore : Option (String → Nat → List ApiEntry))
    (llm : Option (String → String)) (parseJson : String → Option PyVal)
    (query : String) : Except PyErr PyVal := do
  let relevant_apis := search_relevant_apis vectorstore query 5
  if relevant_apis.isEmpty then
    return .dict [("error", .str "관련 API를 찾을 수 없습니다"), ("query", .str query)]
  else
    let api_type ← detect_api_type relevant_apis
    if api_type == "graphql" then
      return .dict [("type", .str "graphql"),
                    ("query", .str (generate_graphql_query llm query relevant_apis)),
                    ("relevant_apis", .list ((relevant_apis.take 3).map (fun a => metaDict a.metadata)))]
    else
      return .dict [("type", .str "openapi"),
                    ("request", generate_openapi_request llm parseJson query relevant_apis),
                    ("relevant_apis", .list ((relevant_apis.take 3).map (fun a => metaDict a.metadata)))]

end IntegratedAPIGenerator

/-! Concrete oracle instances used by witnesses and counterexamples. -/

/-- A vector store that returns no documents for every query. -/
def emptyStore : String → Nat → List Document := fun _ _ => []

/-- An LLM oracle replying with a fixed generated-query text. -/
def genLLM : String → String := fun _ => "GENERATED-QUERY"

/-- An LLM oracle replying with text that is not parseable as JSON. -/
def badJsonLLM : String → String := fun _ => "oops not json"

/-- The identity LLM oracle: replies with the prompt itself. -/
def idLLM : String → String := fun p => p

/-- A `json.loads` oracle for which every reply fails to parse. -/
def parseNone : String → Option PyVal := fun _ => none

/-- A `json.loads` oracle whose parse result is a fixed method/url
request object. -/
def parseGet : String → Option PyVal :=
  fun _ => some (.dict [("method", .str "GET"), ("url", .str "/scenarios")])

/-- A `chain.invoke` oracle replying with a fixed query text. -/
def constChain : List (String × PyVal) → String :=
  fun _ => "query \x7b boards \x7b id \x7d \x7d"

/-- An `execute_query` oracle returning `None`. -/
def constExec : String → PyVal := fun _ => .none_

/-- A store holding one GraphQL-typed scenario document. -/
def doc1 : Document :=
  ⟨"scenario list query dsl", [("type", .mstr "graphql"), ("name", .mstr "scenarios")]⟩

/-- A vector store that returns exactly `doc1` for every query. -/
def store1 : String → Nat → List Document := fun _ _ => [doc1]

/-- Four documents with pairwise distinct contents. -/
def docsFour : List Document := [⟨"A", []⟩, ⟨"B", []⟩, ⟨"C", []⟩, ⟨"D", []⟩]

/-- A DSL record extracted for a single-item `board` query with one
declared argument `id : String!` and related type `Board`. -/
def dslBoard : DslData :=
  generate_dsl_data "board" "query" none [("id", "String!")] ["Board"]

/-- A record whose single variable name contains the join separator. -/
def dslJoinA : DslData :=
  { name := "n", type_ := "query", description := "d", query_template := "t",
    «variables» := ["a, b"], related_types := [] }

/-- A record with two variable names; its join equals `dslJoinA`'s. -/
def dslJoinB : DslData :=
  { name := "n", type_ := "query", description := "d", query_template := "t",
    «variables» := ["a", "b"], related_types := [] }

/-- A classification reply that is valid JSON but lacks the expected
`protocol`/`confidence`/`reasoning` keys. -/
def nakedReply : PyVal := .dict [("protocol_name", .str "graphql")]

/-- A classification reply that is valid JSON but not an object. -/
def arrayReply : PyVal := .list [.str "graphql"]

/-- A well-formed classification reply whose confidence is 2, outside
the unit interval. -/
def overConfident : PyVal :=
  .dict [("protocol", .str "graphql"), ("reasoning", .str "sure"), ("confidence", .num 2)]

/-! ## Claims -/

/-- C1: for every classification reply that is not parseable as JSON
(`json.loads` outcome `none`), `detect_protocol` returns exactly the
fallback Classification Result — `protocol = "graphql"`,
`confidence = 0.5`, and a non-empty reasoning string noting the
fallback — and, being total, raises no exception. -/
theorem C1_detect_protocol_fallback :
    IntegratedQueryGenerator.detect_protocol none
      = IntegratedQueryGenerator.fallbackClassification
    ∧ pyDictGet (IntegratedQueryGenerator.detect_protocol none) "protocol"
      = some (.str "graphql")
    ∧ pyDictGet (IntegratedQueryGenerator.detect_protocol none) "confidence"
      = some (.num (1/2))
    ∧ pyDictGet (IntegratedQueryGenerator.detect_protocol none) "reasoning"
      = some (.str "JSON 파싱 실패로 기본값 사용")
    ∧ "JSON 파싱 실패로 기본값 사용" ≠ "" :=
  ⟨rfl, rfl, rfl, rfl, by decide⟩

/-- C2 counterexample: at the concrete question
"모든 시나리오 목록을 가져와주세요" the `/ask` handler does not respond
with a `{"result": r}` body — it raises `TypeError` inside the
retrieval's translation step (the `config.settings` module object is
subscripted), without ever classifying a protocol. -/
theorem C2_counterexample :
    ask_question idLLM emptyStore constChain constExec "모든 시나리오 목록을 가져와주세요"
      = .error .typeError :=
  rfl

/-- C2 amended: the `/ask` pipeline has no protocol-classification step
(its plan is retrieval feeding the synthesizer call), and for every
choice of LLM, store, chain and executor oracles and every question the
handler raises `TypeError` out of the retrieval's settings-module
subscript instead of producing the `{"result": r}` response; even were
retrieval to return a context list, the synthesizer call as written —
the LLM object bound positionally to `dsl_chunk` — would raise
`AttributeError`. -/
theorem C2_ask_pipeline :
    ∀ (llmInvoke : String → String)
      (similarity_search : String → Nat → List Document)
      (chainInvoke : List (String × PyVal) → String)
      (execute : String → PyVal) (question : String),
      ask_question llmInvoke similarity_search chainInvoke execute question
        = .error .typeError
      ∧ (∀ dsl_context : List PyVal,
          LlmQueryGenerator.generate_graphql_query chainInvoke
            (.list dsl_context) .llmObj .none_
            = .error .attributeError) :=
  fun _ _ _ _ _ => ⟨rfl, fun _ => rfl⟩

/-- C3 counterexample: for the `board` record the chunker's `variables`
metadata is the joined string `"id"`, not the record's list `["id"]`, so
the round trip is not the claimed exact equality of field values. -/
theorem C3_counterexample :
    ((load_dsl_chunk dslBoard).metadata.lookup "variables").map MetaVal.toPy
      = some (.str "id")
    ∧ ((load_dsl_chunk dslBoard).metadata.lookup "variables").map MetaVal.toPy
      ≠ some (.list [.str "id"])
    ∧ dslBoard.«variables» = ["id"] :=
  ⟨rfl, fun h => PyVal.noConfusion (Option.some.inj h), rfl⟩

/-- C3 amended: reloading a stored DSL record reproduces `name` (and
`type`) exactly, while `variables` and `related_types` are flattened to
the `", "`-join of the record's lists — a representation that is not
injective, as the two concrete records with joins `"a, b"` show. -/
theorem C3_chunk_round_trip :
    (∀ dsl : DslData,
      (load_dsl_chunk dsl).metadata.lookup "name" = some (.mstr dsl.name)
      ∧ (load_dsl_chunk dsl).metadata.lookup "type" = some (.mstr dsl.type_)
      ∧ (load_dsl_chunk dsl).metadata.lookup "variables"
        = some (.mstr (String.intercalate ", " dsl.«variables»))
      ∧ (load_dsl_chunk dsl).metadata.lookup "related_types"
        = some (.mstr (String.intercalate ", " dsl.related_types))
      ∧ (load_dsl_chunk dsl).id = dsl.name)
    ∧ (load_dsl_chunk dslJoinA).metadata.lookup "variables"
      = (load_dsl_chunk dslJoinB).metadata.lookup "variables"
    ∧ dslJoinA.«variables» ≠ dslJoinB.«variables» :=
  ⟨fun _ => ⟨rfl, rfl, rfl, rfl, rfl⟩, rfl, by decide⟩

/-- C4 counterexample: in REST mode the production synthesizer
(`IntegratedQueryGenerator.generate_rest_request`) applied to a
malformed LLM reply returns the bare stripped reply string — a value
with no `method`/`url` pair and no `error` key — so query synthesis does
not return the claimed structured object. -/
theorem C4_counterexample :
    IntegratedQueryGenerator.generate_rest_request badJsonLLM "시나리오 실행" []
      = "oops not json"
    ∧ pyDictGet (.str (IntegratedQueryGenerator.generate_rest_request badJsonLLM "시나리오 실행" []))
        "method" = none
    ∧ pyDictGet (.str (IntegratedQueryGenerator.generate_rest_request badJsonLLM "시나리오 실행" []))
        "url" = none
    ∧ pyDictGet (.str (IntegratedQueryGenerator.generate_rest_request badJsonLLM "시나리오 실행" []))
        "error" = none :=
  ⟨rfl, rfl, rfl, rfl⟩

/-- C4 amended: the production REST synthesizer never raises but returns
the raw stripped reply as a plain string with no JSON parsing; the
documented parse-or-error behaviour is implemented by the test harness's
`generate_openapi_request`, which returns the parsed value when the
stripped reply parses and otherwise an object with an `error` key and
the raw stripped reply preserved under `raw_response`. -/
theorem C4_rest_synthesis_total :
    (∀ (llm : String → String) (uq : String) (docs : List Document),
      IntegratedQueryGenerator.generate_rest_request llm uq docs
        = pyStrip (llm (IntegratedQueryGenerator.rest_prompt
            (IntegratedQueryGenerator.context_text docs) uq)))
    ∧ (∀ (llm : String → String) (parse : String → Option PyVal)
        (q : String) (apis : List IntegratedAPIGenerator.ApiEntry) (v : PyVal),
        parse (pyStrip (llm (IntegratedAPIGenerator.openapi_gen_prompt
            (IntegratedAPIGenerator.api_context_openapi apis) q))) = some v →
        IntegratedAPIGenerator.generate_openapi_request (some llm) parse q apis = v)
    ∧ (∀ (llm : String → String) (parse : String → Option PyVal)
        (q : String) (apis : List IntegratedAPIGenerator.ApiEntry),
        parse (pyStrip (llm (IntegratedAPIGenerator.openapi_gen_prompt
            (IntegratedAPIGenerator.api_context_openapi apis) q))) = none →
        IntegratedAPIGenerator.generate_openapi_request (some llm) parse q apis
          = .dict [("error", .str "JSON 파싱 실패"),
                   ("raw_response", .str (pyStrip (llm (IntegratedAPIGenerator.openapi_gen_prompt
                       (IntegratedAPIGenerator.api_context_openapi apis) q))))]) := by
  refine ⟨fun _ _ _ => rfl, ?_, ?_⟩
  · intro llm parse q apis v h
    simp [IntegratedAPIGenerator.generate_openapi_request, h]
  · intro llm parse q apis h
    simp [IntegratedAPIGenerator.generate_openapi_request, h]

/-- C4 witness: the two parse outcomes at concrete oracles. -/
theorem C4_rest_synthesis_total_witness :
    IntegratedAPIGenerator.generate_openapi_request (some badJsonLLM) parseGet "q" []
      = .dict [("method", .str "GET"), ("url", .str "/scenarios")]
    ∧ IntegratedAPIGenerator.generate_openapi_request (some badJsonLLM) parseNone "q" []
      = .dict [("error", .str "JSON 파싱 실패"), ("raw_response", .str "oops not json")] :=
  ⟨C4_rest_synthesis_total.2.1 badJsonLLM parseGet "q" [] _ rfl,
   C4_rest_synthesis_total.2.2 badJsonLLM parseNone "q" [] rfl⟩

/-- Helper: Python equality of a metadata lookup against a string value
holds exactly for that stored string. -/
theorem metaEqPy_str {m : Option MetaVal} {p : String}
    (h : metaEqPy m (.str p) = true) : m = some (.mstr p) := by
  match m with
  | none => exact absurd h (by simp [metaEqPy])
  | some (.mstr s) =>
      simp only [metaEqPy, beq_iff_eq] at h
      exact h ▸ rfl
  | some (.mnum q) => exact absurd h (by simp [metaEqPy])
  | some (.mbool b) => exact absurd h (by simp [metaEqPy])

/-- C5: every document returned by the protocol-filtered retrieval
carries `type` metadata equal to the classified protocol string. -/
theorem C5_protocol_filter :
    ∀ (similarity_search : String → Nat → List Document)
      (user_query p : String) (k : Nat) (d : Document),
      d ∈ IntegratedQueryGenerator.search_relevant_context similarity_search
            user_query (.str p) k →
      d.metadata.lookup "type" = some (.mstr p) := by
  intro similarity_search user_query p k d h
  simp only [IntegratedQueryGenerator.search_relevant_context] at h
  have hf : metaEqPy (d.metadata.lookup "type") (.str p) = true := (List.mem_filter.mp h).2
  exact metaEqPy_str hf

/-- C5 witness: the singleton store's GraphQL document passes the filter
and its `type` metadata is the classified protocol. -/
theorem C5_protocol_filter_witness :
    doc1.metadata.lookup "type" = some (.mstr "graphql") :=
  C5_protocol_filter store1 "모든 시나리오 목록" "graphql" 5 doc1
    (List.mem_singleton.mpr rfl)

/-- C6 counterexample: a parseable reply whose `confidence` is 2 flows
through `detect_protocol` — and through the whole of `generate_query` —
unclamped, so the produced confidence lies outside `[0, 1]`. -/
theorem C6_counterexample :
    pyDictGet (IntegratedQueryGenerator.detect_protocol (some overConfident)) "confidence"
      = some (.num 2)
    ∧ IntegratedQueryGenerator.generate_query (some overConfident) emptyStore genLLM "질문"
      = .ok (.dict [("user_query", .str "질문"),
                    ("detected_protocol", .str "graphql"),
                    ("confidence", .num 2),
                    ("reasoning", .str "sure"),
                    ("generated_query", .str "GENERATED-QUERY"),
                    ("context_sources", .list [])])
    ∧ ¬ ((2 : ℚ) ≤ 1) :=
  ⟨rfl, rfl, by norm_num⟩

/-- C6 amended: the classification confidence lies in `[0, 1]` whenever
the reply is unparseable (the fallback's 0.5) or the parsed reply's own
`confidence` lies in `[0, 1]`; `detect_protocol` itself performs no
clamping or validation. -/
theorem C6_confidence_range :
    ∀ (parsed : Option PyVal) (q : ℚ),
      pyDictGet (IntegratedQueryGenerator.detect_protocol parsed) "confidence"
        = some (.num q) →
      (∀ v, parsed = some v → ∀ r : ℚ,
        pyDictGet v "confidence" = some (.num r) → 0 ≤ r ∧ r ≤ 1) →
      0 ≤ q ∧ q ≤ 1 := by
  intro parsed q hq hbound
  match parsed with
  | none =>
      have h1 : some (PyVal.num (1/2)) = some (PyVal.num q) := hq
      have h2 : (1 : ℚ)/2 = q := PyVal.num.inj (Option.some.inj h1)
      rw [← h2]
      norm_num
  | some v => exact hbound v rfl q hq

/-- C6 witness: the fallback confidence 0.5 is in the unit interval. -/
theorem C6_confidence_range_witness : (0 : ℚ) ≤ 1/2 ∧ (1/2 : ℚ) ≤ 1 :=
  C6_confidence_range none (1/2) rfl (fun _ h => nomatch h)

/-- C7 counterexample: with a retrieval that returns no documents,
`generate_query` does not surface a "no relevant API found" result — it
proceeds to invoke the synthesizer over an empty context block and
returns a normal Generation Result with empty `context_sources` and no
`error` key. -/
theorem C7_counterexample :
    IntegratedQueryGenerator.generate_query none emptyStore genLLM "미지원 질문"
      = .ok (.dict [("user_query", .str "미지원 질문"),
                    ("detected_protocol", .str "graphql"),
                    ("confidence", .num (1/2)),
                    ("reasoning", .str "JSON 파싱 실패로 기본값 사용"),
                    ("generated_query", .str "GENERATED-QUERY"),
                    ("context_sources", .list [])])
    ∧ pyDictGet (.dict [("user_query", .str "미지원 질문"),
                    ("detected_protocol", .str "graphql"),
                    ("confidence", .num (1/2)),
                    ("reasoning", .str "JSON 파싱 실패로 기본값 사용"),
                    ("generated_query", .str "GENERATED-QUERY"),
                    ("context_sources", .list [])]) "error" = none :=
  ⟨rfl, rfl⟩

/-- C7 amended: on empty retrieval the production `generate_query`
proceeds with an empty context block and returns a normal result; the
explicit "no relevant API found" error result is produced only by the
test harness's `generate_api_call`. -/
theorem C7_empty_retrieval :
    (∀ (llm : String → String) (uq : String),
      IntegratedQueryGenerator.generate_query none emptyStore llm uq
        = .ok (.dict [("user_query", .str uq),
                      ("detected_protocol", .str "graphql"),
                      ("confidence", .num (1/2)),
                      ("reasoning", .str "JSON 파싱 실패로 기본값 사용"),
                      ("generated_query",
                        .str (pyStrip (llm (IntegratedQueryGenerator.graphql_prompt "" uq)))),
                      ("context_sources", .list [])]))
    ∧ (∀ (vectorstore : Option (String → Nat → List IntegratedAPIGenerator.ApiEntry))
        (llm : Option (String → String)) (parse : String → Option PyVal) (query : String),
        IntegratedAPIGenerator.search_relevant_apis vectorstore query 5 = [] →
        IntegratedAPIGenerator.generate_api_call vectorstore llm parse query
          = .ok (.dict [("error", .str "관련 API를 찾을 수 없습니다"),
                        ("query", .str query)])) := by
  refine ⟨fun _ _ => rfl, ?_⟩
  intro vectorstore llm parse query h
  simp only [IntegratedAPIGenerator.generate_api_call, h, List.isEmpty_nil, if_true]
  rfl

/-- C7 witness: both branches at concrete oracles — the production
generator proceeding on empty retrieval, and the test harness returning
the explicit error dict when its store is absent. -/
theorem C7_empty_retrieval_witness :
    IntegratedQueryGenerator.generate_query none emptyStore genLLM "w"
      = .ok (.dict [("user_query", .str "w"),
                    ("detected_protocol", .str "graphql"),
                    ("confidence", .num (1/2)),
                    ("reasoning", .str "JSON 파싱 실패로 기본값 사용"),
                    ("generated_query", .str "GENERATED-QUERY"),
                    ("context_sources", .list [])])
    ∧ IntegratedAPIGenerator.generate_api_call none (some genLLM) parseNone "w"
      = .ok (.dict [("error", .str "관련 API를 찾을 수 없습니다"), ("query", .str "w")]) :=
  ⟨C7_empty_retrieval.1 genLLM "w",
   C7_empty_retrieval.2 none (some genLLM) parseNone "w" rfl⟩

/-- C8 counterexample: with four retrieved documents the production
synthesizer's prompt context is the join of all four contents, not of
the top three, so its output differs from the top-3 prompt. -/
theorem C8_counterexample :
    IntegratedQueryGenerator.generate_graphql_query idLLM "q" docsFour
      ≠ pyStrip (idLLM (IntegratedQueryGenerator.graphql_prompt
          (IntegratedQueryGenerator.context_text (docsFour.take 3)) "q"))
    ∧ IntegratedQueryGenerator.context_text docsFour = "A\n\nB\n\nC\n\nD"
    ∧ IntegratedQueryGenerator.context_text (docsFour.take 3) = "A\n\nB\n\nC" :=
  ⟨by decide, rfl, rfl⟩

/-- C8 amended: the production synthesizers concatenate the contents of
all the documents handed to them; the top-3 cap (`relevant_apis[:3]`)
exists only in the test harness's context builders, which indeed ignore
everything beyond the first three results. -/
theorem C8_context_block :
    (∀ (llm : String → String) (uq : String) (docs : List Document),
      IntegratedQueryGenerator.generate_graphql_query llm uq docs
        = pyStrip (llm (IntegratedQueryGenerator.graphql_prompt
            (IntegratedQueryGenerator.context_text docs) uq)))
    ∧ (∀ (llm : String → String) (uq : String) (docs : List Document),
      IntegratedQueryGenerator.generate_rest_request llm uq docs
        = pyStrip (llm (IntegratedQueryGenerator.rest_prompt
            (IntegratedQueryGenerator.context_text docs) uq)))
    ∧ (∀ apis : List IntegratedAPIGenerator.ApiEntry,
        IntegratedAPIGenerator.api_context_graphql apis
          = IntegratedAPIGenerator.api_context_graphql (apis.take 3))
    ∧ (∀ apis : List IntegratedAPIGenerator.ApiEntry,
        IntegratedAPIGenerator.api_context_openapi apis
          = IntegratedAPIGenerator.api_context_openapi (apis.take 3)) := by
  refine ⟨fun _ _ _ => rfl, fun _ _ _ => rfl, ?_, ?_⟩
  · intro apis
    simp [IntegratedAPIGenerator.api_context_graphql, List.take_take]
  · intro apis
    simp [IntegratedAPIGenerator.api_context_openapi, List.take_take]

/-- C9 (code bug): the retriever never returns its ranked document
list — for every LLM oracle, store, utterance and `k`,
`retrieve_relevant_dsl` raises `TypeError` at the settings-module
subscript in its translation step, before the similarity search is
reached, so the contract the claim states (an ordered sequence of at
most `k` documents) is never delivered. -/
theorem C9_retriever_raises :
    ∀ (llmInvoke : String → String)
      (similarity_search : String → Nat → List Document)
      (user_input : String) (k : Nat),
      retrieve_relevant_dsl llmInvoke similarity_search user_input k
        = .error .typeError :=
  fun _ _ _ _ => rfl

/-- C10: `detect_protocol` passes a parseable reply through unchanged
even when it lacks the expected keys or is not an object, and the
subsequent subscript lookups in `generate_query` then raise an uncaught
`KeyError` (missing key) or `TypeError` (non-object) instead of falling
back. -/
theorem C10_parsed_reply_unvalidated :
    IntegratedQueryGenerator.detect_protocol (some nakedReply) = nakedReply
    ∧ IntegratedQueryGenerator.generate_query (some nakedReply) emptyStore genLLM "질문"
      = .error (.keyError "protocol")
    ∧ IntegratedQueryGenerator.detect_protocol (some arrayReply) = arrayReply
    ∧ IntegratedQueryGenerator.generate_query (some arrayReply) emptyStore genLLM "질문"
      = .error .typeError :=
  ⟨rfl, rfl, rfl, rfl⟩

end OperatoAgent
